import Mathlib

/-!
Process-execution helpers (`examples/systemcalls/systemcalls.c`) and the
mutex demo thread (`examples/threading/threading.c`).

The C functions talk to the operating system.  They are embedded as pure
functions of an `Env` record that fixes what every system call answers in the
process that is being followed, and they produce the ordered list of system
calls that were made together with the way the function was left.

Logging (`printf`, `perror`, `getpid` used for logging) has no influence on
control flow and is left out of the call list.

`count` is an `int` in C.  A negative `count` makes the variable-length array
`command[count+1]` ill-formed, so the embedding takes `count : Nat`.
-/

namespace Systemcalls

/-- A `char *` value: `none` is `NULL`, `some s` points to the string `s`. -/
abbrev CStr := Option String

/-- One system or library call made by the process, with its arguments. -/
inductive Event where
  | c_system (cmd : CStr)
  | c_open (path : String)
  | c_fork
  | c_dup2 (oldfd newfd : Int)
  | c_close (fd : Int)
  | c_execv (path : CStr) (argv : List CStr)
  | c_execvp (path : CStr) (argv : List CStr)
  | c_waitpid (pid : Int)
  deriving DecidableEq, Repr

/-- How the followed process leaves the function. -/
inductive Outcome where
  /-- The function executed `return b;`. -/
  | returned (b : Bool)
  /-- The process was terminated by `abort()`. -/
  | aborted
  /-- The process was terminated by `_exit(code)`. -/
  | exited (code : Int)
  /-- The exec call succeeded: the process image was replaced, nothing of the
  function runs any more. -/
  | replaced
  /-- More arguments were requested through `va_arg` than the caller supplied
  (undefined behaviour in C). -/
  | undefined
  deriving DecidableEq, Repr

/-- Answers of the operating system to the calls of one process.

* `system_rc cmd`: value returned by `system(cmd)`.
* `open_fd path`: value returned by `open(path, O_WRONLY|O_TRUNC|O_CREAT, 0644)`.
* `fork_pid`: value returned by `fork()` in the followed process
  (`0` in the child, the child's pid in the parent, `-1` on failure).
* `dup2_rc old new`: value returned by `dup2(old, new)`.
* `execv_rc path argv`, `execvp_rc path argv`: `none` when the image is
  replaced (the call does not return), `some r` when the call returns `r`.
* `waitpid_status pid`: `some s` when `waitpid(pid, &status, 0)` stores `s`
  in `status`, `none` when it fails and leaves `status` untouched. -/
structure Env where
  system_rc : CStr → Int
  open_fd : String → Int
  fork_pid : Int
  dup2_rc : Int → Int → Int
  execv_rc : CStr → List CStr → Option Int
  execvp_rc : CStr → List CStr → Option Int
  waitpid_status : Int → Option Int

/-- Result of running `do_system` or `do_exec`. -/
structure Run where
  trace : List Event
  outcome : Outcome
  deriving DecidableEq, Repr

/-- Result of running `do_exec_redirect`: additionally the set of descriptors
open in the followed process when it leaves the function. -/
structure FdRun where
  trace : List Event
  outcome : Outcome
  fds : Finset Int
  deriving DecidableEq

/-- `do_system`, systemcalls.c lines 10-20. -/
def do_system (env : Env) (cmd : CStr) : Run :=
  let rc := env.system_rc cmd
  if rc ≠ 0 then
    ⟨[Event.c_system cmd], Outcome.returned false⟩
  else
    ⟨[Event.c_system cmd], Outcome.returned true⟩

/-- The loop `for (i=0; i<count; i++) command[i] = va_arg(args, char *);`:
takes the first `count` variadic arguments in order; `none` when the caller
supplied fewer than `count`. -/
def va_collect : Nat → List CStr → Option (List CStr)
  | 0, _ => some []
  | _ + 1, [] => none
  | n + 1, a :: rest => (va_collect n rest).map (fun tl => a :: tl)

/-- The array `command[count+1]` after the loop and `command[count] = NULL;`. -/
def build_command (count : Nat) (args : List CStr) : Option (List CStr) :=
  (va_collect count args).map (fun cmd => cmd ++ [none])

/-- The C expression `command[0]`. -/
def command0 (command : List CStr) : CStr := command.headD none

/-- `do_exec`, systemcalls.c lines 35-90. -/
def do_exec (env : Env) (count : Nat) (args : List CStr) : Run :=
  match build_command count args with
  | none => ⟨[], Outcome.undefined⟩
  | some command =>
    let child_pid := env.fork_pid
    if child_pid = -1 then
      ⟨[Event.c_fork], Outcome.returned false⟩
    else if child_pid = 0 then
      match env.execv_rc (command0 command) command with
      | none =>
        ⟨[Event.c_fork, Event.c_execv (command0 command) command], Outcome.replaced⟩
      | some cmd_status =>
        if cmd_status = -1 then
          ⟨[Event.c_fork, Event.c_execv (command0 command) command], Outcome.exited 1⟩
        else
          ⟨[Event.c_fork, Event.c_execv (command0 command) command], Outcome.returned true⟩
    else if child_pid > 0 then
      let child_status : Int := 1
      let child_status := (env.waitpid_status child_pid).getD child_status
      if child_status ≠ 0 then
        ⟨[Event.c_fork, Event.c_waitpid child_pid], Outcome.returned false⟩
      else
        ⟨[Event.c_fork, Event.c_waitpid child_pid], Outcome.returned true⟩
    else
      ⟨[Event.c_fork], Outcome.returned false⟩

/-- The `default:` arm of the switch in `do_exec_redirect` (lines 149-167)
followed by the final `return true;`.  `trace` and `fds` are the calls made
and the descriptors open when the arm is entered. -/
def redirect_parent (env : Env) (trace : List Event) (fds : Finset Int)
    (fd child_pid : Int) : FdRun :=
  let fds := fds.erase fd
  let trace := trace ++ [Event.c_close fd]
  let child_status : Int := 1
  let child_status := (env.waitpid_status child_pid).getD child_status
  let trace := trace ++ [Event.c_waitpid child_pid]
  if child_status ≠ 0 then
    ⟨trace, Outcome.returned false, fds⟩
  else
    ⟨trace, Outcome.returned true, fds⟩

/-- `do_exec_redirect`, systemcalls.c lines 97-172.  `fds` is the set of
descriptors open in the calling process when the function is entered.
A successful `open` adds its descriptor, a successful `dup2(fd, 1)` makes
descriptor 1 open, `close(fd)` removes `fd`. -/
def do_exec_redirect (env : Env) (fds : Finset Int) (outputfile : CStr)
    (count : Nat) (args : List CStr) : FdRun :=
  match outputfile with
  | none => ⟨[], Outcome.returned false, fds⟩
  | some path =>
    match build_command count args with
    | none => ⟨[], Outcome.undefined, fds⟩
    | some command =>
      let fd := env.open_fd path
      if fd < 0 then
        ⟨[Event.c_open path], Outcome.aborted, fds⟩
      else
        let fds := insert fd fds
        let child_pid := env.fork_pid
        if child_pid = -1 then
          ⟨[Event.c_open path, Event.c_fork], Outcome.aborted, fds⟩
        else if child_pid = 0 then
          if env.dup2_rc fd 1 < 0 then
            ⟨[Event.c_open path, Event.c_fork, Event.c_dup2 fd 1], Outcome.aborted, fds⟩
          else
            let fds := insert 1 fds
            let fds := fds.erase fd
            let trace := [Event.c_open path, Event.c_fork, Event.c_dup2 fd 1,
              Event.c_close fd, Event.c_execvp (command0 command) command]
            match env.execvp_rc (command0 command) command with
            | none => ⟨trace, Outcome.replaced, fds⟩
            | some cmd_status =>
              if cmd_status = -1 then
                ⟨trace, Outcome.exited 1, fds⟩
              else
                redirect_parent env trace fds fd child_pid
        else
          redirect_parent env [Event.c_open path, Event.c_fork] fds fd child_pid

/-- One call of `do_exec_redirect` in a sequence of calls: the answers of the
operating system during that call and the arguments of the call. -/
structure Call where
  env : Env
  outputfile : CStr
  count : Nat
  args : List CStr

/-- Sequential calls of `do_exec_redirect` by one process, each started on the
descriptor set the previous one left.  `none` when one of the calls does not
return to its caller. -/
def run_calls : List Call → Finset Int → Option (Finset Int)
  | [], fds => some fds
  | c :: cs, fds =>
    match (do_exec_redirect c.env fds c.outputfile c.count c.args).outcome with
    | Outcome.returned _ =>
      run_calls cs (do_exec_redirect c.env fds c.outputfile c.count c.args).fds
    | _ => none

/-- Wait-status word of a terminated child as `waitpid` stores it on Linux. -/
inductive WaitStatus where
  /-- Normal exit with code `c`. -/
  | exited (c : Fin 256)
  /-- Termination by signal `s + 1` (so the signal number is in 1..127),
  `core` telling whether the core-dump bit is set. -/
  | signaled (s : Fin 127) (core : Bool)
  deriving DecidableEq, Repr

/-- Encoding of a wait status: exit code `c` is `c * 256`, signal `s` is `s`,
plus 128 when a core was dumped. -/
def WaitStatus.encode : WaitStatus → Int
  | WaitStatus.exited c => (c.val : Int) * 256
  | WaitStatus.signaled s core => ((s.val : Int) + 1) + (if core then 128 else 0)

end Systemcalls

namespace Threading

/-- Calls made by `threadfunc`. -/
inductive Event where
  | c_usleep (usec : Int)
  | c_lock
  | c_unlock
  deriving DecidableEq, Repr

/-- The fields of `struct thread_data` that `threadfunc` reads or writes, the
`mutex` pointer apart (the mutex it points to is the explicit `held` state
below). -/
structure thread_data where
  wait_to_obtain_ms : Int
  wait_to_release_ms : Int
  thread_complete_success : Bool
  deriving DecidableEq, Repr

/-- Result of one execution of `threadfunc`: the pointer returned, the
contents of the structure it points to, whether the thread holds the mutex on
return, and the calls made in order. -/
structure ThreadRun where
  ret : Nat
  t_data : thread_data
  held : Bool
  trace : List Event
  deriving DecidableEq, Repr

/-- `threadfunc`, threading.c lines 22-82.  `thread_param` is the address
passed in, `t` the structure stored there, `rc1` and `rc2` the values returned
by the first and the second `usleep`.  `pthread_mutex_lock` returns once the
thread owns the mutex; `pthread_mutex_unlock` releases it.  The product
`ms * 1000` is recorded without wrap-around. -/
def threadfunc (thread_param : Nat) (t : thread_data) (rc1 rc2 : Int) : ThreadRun :=
  let t_data := thread_param
  let held := false
  let trace := [Event.c_usleep (t.wait_to_obtain_ms * 1000)]
  if rc1 ≠ 0 then
    ⟨t_data, { t with thread_complete_success := false }, held, trace⟩
  else
    let held := true
    let trace := trace ++ [Event.c_lock]
    let trace := trace ++ [Event.c_usleep (t.wait_to_release_ms * 1000)]
    if rc2 ≠ 0 then
      ⟨t_data, { t with thread_complete_success := false }, held, trace⟩
    else
      let t := { t with thread_complete_success := true }
      let held := false
      let trace := trace ++ [Event.c_unlock]
      ⟨t_data, t, held, trace⟩

end Threading

namespace Systemcalls

/-! Concrete environments and calls used to exercise the definitions. -/

/-- Parent side of a successful run: `open` gives descriptor 3, `fork` gives
the child pid 4242, the child exits with code 0. -/
def env_parent_ok : Env where
  system_rc := fun _ => 0
  open_fd := fun _ => 3
  fork_pid := 4242
  dup2_rc := fun _ newfd => newfd
  execv_rc := fun _ _ => none
  execvp_rc := fun _ _ => none
  waitpid_status := fun _ => some 0

/-- Parent side of a run whose child exits with code 1 (status word 256). -/
def env_parent_fail : Env where
  system_rc := fun _ => 256
  open_fd := fun _ => 3
  fork_pid := 4242
  dup2_rc := fun _ newfd => newfd
  execv_rc := fun _ _ => none
  execvp_rc := fun _ _ => none
  waitpid_status := fun _ => some 256

/-- Process creation fails: `fork` returns -1. -/
def env_fork_fails : Env where
  system_rc := fun _ => -1
  open_fd := fun _ => 3
  fork_pid := -1
  dup2_rc := fun _ newfd => newfd
  execv_rc := fun _ _ => none
  execvp_rc := fun _ _ => none
  waitpid_status := fun _ => none

/-- Every `open` fails with -1 (as `open("")` does, with ENOENT). -/
def env_open_fails : Env where
  system_rc := fun _ => -1
  open_fd := fun _ => -1
  fork_pid := 4242
  dup2_rc := fun _ newfd => newfd
  execv_rc := fun _ _ => none
  execvp_rc := fun _ _ => none
  waitpid_status := fun _ => some 0

/-- Child side, the exec call fails and returns -1. -/
def env_child_exec_fails : Env where
  system_rc := fun _ => -1
  open_fd := fun _ => 3
  fork_pid := 0
  dup2_rc := fun _ newfd => newfd
  execv_rc := fun _ _ => some (-1)
  execvp_rc := fun _ _ => some (-1)
  waitpid_status := fun _ => none

/-- Child side, `dup2` fails with -1. -/
def env_child_dup2_fails : Env where
  system_rc := fun _ => -1
  open_fd := fun _ => 3
  fork_pid := 0
  dup2_rc := fun _ _ => -1
  execv_rc := fun _ _ => some (-1)
  execvp_rc := fun _ _ => some (-1)
  waitpid_status := fun _ => none

/-- Child side, the exec call replaces the image. -/
def env_child_exec_ok : Env where
  system_rc := fun _ => 0
  open_fd := fun _ => 3
  fork_pid := 0
  dup2_rc := fun _ newfd => newfd
  execv_rc := fun _ _ => none
  execvp_rc := fun _ _ => none
  waitpid_status := fun _ => none

/-- The descriptors 0, 1 and 2 every process starts with. -/
def std_fds : Finset Int := {0, 1, 2}

/-- Arguments of `do_exec(2, "/bin/echo", "hi")`. -/
def echo_args : List CStr := [some "/bin/echo", some "hi"]

/-- The call `do_exec_redirect("/tmp/out.txt", 2, "/bin/echo", "hi")` seen from
the parent of a child that exits with code 0. -/
def call_ok : Call := ⟨env_parent_ok, some "/tmp/out.txt", 2, echo_args⟩

/-- The same call seen from the parent of a child that exits with code 1. -/
def call_fail : Call := ⟨env_parent_fail, some "/tmp/out.txt", 2, echo_args⟩

/-- A call with a NULL output path. -/
def call_null : Call := ⟨env_parent_ok, none, 2, echo_args⟩

/-! Facts about the argument vector shared by the results below. -/

theorem va_collect_of_le (count : Nat) (args : List CStr) (h : count ≤ args.length) :
    va_collect count args = some (args.take count) := by
  induction count generalizing args with
  | zero => simp [va_collect]
  | succ n ih =>
    cases args with
    | nil => simp at h
    | cons a rest =>
      have h1 : n ≤ rest.length := by simpa using h
      simp [va_collect, ih rest h1]

theorem build_command_of_le (count : Nat) (args : List CStr) (h : count ≤ args.length) :
    build_command count args = some (args.take count ++ [none]) := by
  simp [build_command, va_collect_of_le count args h]

/-- C2. `do_system(cmd)` returns true exactly when `system(cmd)` returned 0 and
false exactly when it returned anything else (the invocation failure -1 and
every non-zero termination status included); the only call made is
`system(cmd)`. -/
theorem do_system_true_iff_rc_zero (env : Env) (cmd : CStr) :
    ((do_system env cmd).outcome = Outcome.returned true ↔ env.system_rc cmd = 0) ∧
    ((do_system env cmd).outcome = Outcome.returned false ↔ env.system_rc cmd ≠ 0) ∧
    (do_system env cmd).trace = [Event.c_system cmd] := by
  unfold do_system
  by_cases h : env.system_rc cmd = 0 <;> simp [h]

/-- C1. In the calling (parent) process, that is when `fork` did not return 0,
and for a call that supplies its `count` arguments, `do_exec` returns true
exactly when `fork` returned a positive pid and `waitpid` stored the status 0
for that pid, and returns false in every other case: `fork` negative,
`waitpid` leaving the status at its initial value 1, or a non-zero status. -/
theorem do_exec_parent_true_iff (env : Env) (count : Nat) (args : List CStr)
    (hargs : count ≤ args.length) (hparent : env.fork_pid ≠ 0) :
    ((do_exec env count args).outcome = Outcome.returned true ↔
      (0 < env.fork_pid ∧ env.waitpid_status env.fork_pid = some 0)) ∧
    ((do_exec env count args).outcome = Outcome.returned false ↔
      ¬ (0 < env.fork_pid ∧ env.waitpid_status env.fork_pid = some 0)) ∧
    (env.fork_pid < 0 → (do_exec env count args).outcome = Outcome.returned false) ∧
    (env.waitpid_status env.fork_pid = none →
      (do_exec env count args).outcome = Outcome.returned false) ∧
    (∀ s : Int, env.waitpid_status env.fork_pid = some s → s ≠ 0 →
      (do_exec env count args).outcome = Outcome.returned false) := by
  unfold do_exec
  rw [build_command_of_le count args hargs]
  by_cases h1 : env.fork_pid = -1
  · simp [h1]
  · by_cases h2 : 0 < env.fork_pid
    · cases hw : env.waitpid_status env.fork_pid with
      | none => simp [h1, hparent, h2, hw, not_lt_of_gt h2]
      | some s =>
        by_cases hs : s = 0
        · simp [h1, hparent, h2, hw, hs, not_lt_of_gt h2]
        · simp [h1, hparent, h2, hw, hs, not_lt_of_gt h2]
    · have h3 : env.fork_pid < 0 := by omega
      simp [h1, hparent, h2, h3]

/-- Witness for C1: the parent of a child that exits with code 0. -/
theorem do_exec_parent_true_iff_witness :
    (2 ≤ echo_args.length ∧ env_parent_ok.fork_pid ≠ 0) ∧
    (do_exec env_parent_ok 2 echo_args).outcome = Outcome.returned true :=
  ⟨⟨by decide, by decide⟩,
    (do_exec_parent_true_iff env_parent_ok 2 echo_args (by decide) (by decide)).1.2
      ⟨by decide, rfl⟩⟩

/-! The paths through `do_exec_redirect`, one lemma each. -/

theorem redirect_open_fails (env : Env) (fds : Finset Int) (path : String) (count : Nat)
    (args : List CStr) (hargs : count ≤ args.length) (hopen : env.open_fd path < 0) :
    do_exec_redirect env fds (some path) count args =
      ⟨[Event.c_open path], Outcome.aborted, fds⟩ := by
  simp [do_exec_redirect, build_command_of_le count args hargs, hopen]

theorem redirect_fork_fails (env : Env) (fds : Finset Int) (path : String) (count : Nat)
    (args : List CStr) (hargs : count ≤ args.length) (hopen : 0 ≤ env.open_fd path)
    (hfork : env.fork_pid = -1) :
    do_exec_redirect env fds (some path) count args =
      ⟨[Event.c_open path, Event.c_fork], Outcome.aborted, insert (env.open_fd path) fds⟩ := by
  simp [do_exec_redirect, build_command_of_le count args hargs, not_lt_of_ge hopen, hfork]

theorem redirect_parent_path (env : Env) (fds : Finset Int) (path : String) (count : Nat)
    (args : List CStr) (hargs : count ≤ args.length) (hopen : 0 ≤ env.open_fd path)
    (hfork : env.fork_pid ≠ -1) (hparent : env.fork_pid ≠ 0) :
    do_exec_redirect env fds (some path) count args =
      redirect_parent env [Event.c_open path, Event.c_fork] (insert (env.open_fd path) fds)
        (env.open_fd path) env.fork_pid := by
  simp [do_exec_redirect, build_command_of_le count args hargs, not_lt_of_ge hopen, hfork,
    hparent]

theorem redirect_dup2_fails (env : Env) (fds : Finset Int) (path : String) (count : Nat)
    (args : List CStr) (hargs : count ≤ args.length) (hopen : 0 ≤ env.open_fd path)
    (hchild : env.fork_pid = 0) (hdup : env.dup2_rc (env.open_fd path) 1 < 0) :
    do_exec_redirect env fds (some path) count args =
      ⟨[Event.c_open path, Event.c_fork, Event.c_dup2 (env.open_fd path) 1], Outcome.aborted,
        insert (env.open_fd path) fds⟩ := by
  simp [do_exec_redirect, build_command_of_le count args hargs, not_lt_of_ge hopen, hchild,
    hdup]

theorem redirect_child_exec (env : Env) (fds : Finset Int) (path : String) (count : Nat)
    (args : List CStr) (hargs : count ≤ args.length) (hopen : 0 ≤ env.open_fd path)
    (hchild : env.fork_pid = 0) (hdup : 0 ≤ env.dup2_rc (env.open_fd path) 1) :
    do_exec_redirect env fds (some path) count args =
      match env.execvp_rc (command0 (args.take count ++ [none])) (args.take count ++ [none]) with
      | none =>
        ⟨[Event.c_open path, Event.c_fork, Event.c_dup2 (env.open_fd path) 1,
            Event.c_close (env.open_fd path),
            Event.c_execvp (command0 (args.take count ++ [none])) (args.take count ++ [none])],
          Outcome.replaced, (insert 1 (insert (env.open_fd path) fds)).erase (env.open_fd path)⟩
      | some cmd_status =>
        if cmd_status = -1 then
          ⟨[Event.c_open path, Event.c_fork, Event.c_dup2 (env.open_fd path) 1,
              Event.c_close (env.open_fd path),
              Event.c_execvp (command0 (args.take count ++ [none])) (args.take count ++ [none])],
            Outcome.exited 1,
            (insert 1 (insert (env.open_fd path) fds)).erase (env.open_fd path)⟩
        else
          redirect_parent env
            [Event.c_open path, Event.c_fork, Event.c_dup2 (env.open_fd path) 1,
              Event.c_close (env.open_fd path),
              Event.c_execvp (command0 (args.take count ++ [none])) (args.take count ++ [none])]
            ((insert 1 (insert (env.open_fd path) fds)).erase (env.open_fd path))
            (env.open_fd path) env.fork_pid := by
  simp [do_exec_redirect, build_command_of_le count args hargs, not_lt_of_ge hopen, hchild,
    not_lt_of_ge hdup]

theorem redirect_parent_eq (env : Env) (trace : List Event) (fds : Finset Int)
    (fd child_pid : Int) :
    redirect_parent env trace fds fd child_pid =
      ⟨trace ++ [Event.c_close fd, Event.c_waitpid child_pid],
        Outcome.returned (decide (env.waitpid_status child_pid = some 0)), fds.erase fd⟩ := by
  unfold redirect_parent
  cases hw : env.waitpid_status child_pid with
  | none => simp
  | some s => by_cases hs : s = 0 <;> simp [hs]

/-- C3, as stated, fails: with the empty string as output path the guard of
`do_exec_redirect` does not fire, `open("")` is called, and when it fails the
process aborts instead of returning false. -/
theorem do_exec_redirect_empty_path_opens :
    (do_exec_redirect env_open_fails std_fds (some "") 2 echo_args).trace = [Event.c_open ""] ∧
    (do_exec_redirect env_open_fails std_fds (some "") 2 echo_args).outcome = Outcome.aborted ∧
    ¬ ((do_exec_redirect env_open_fails std_fds (some "") 2 echo_args).outcome =
          Outcome.returned false ∧
        Event.c_open "" ∉ (do_exec_redirect env_open_fails std_fds (some "") 2 echo_args).trace) := by
  have h := redirect_open_fails env_open_fails std_fds "" 2 echo_args (by decide) (by decide)
  rw [h]
  simp

/-- C3, amended.  With a NULL output path `do_exec_redirect` returns false
without any system call (no `open`, no `fork`) and leaves the descriptor set
as it was.  With the empty string as output path `open` is called on it; when
that `open` returns a negative value the process aborts and `fork` is not
called. -/
theorem do_exec_redirect_null_path (env : Env) (fds : Finset Int) (count : Nat)
    (args : List CStr) (hargs : count ≤ args.length) :
    ((do_exec_redirect env fds none count args).outcome = Outcome.returned false ∧
      (∀ p, Event.c_open p ∉ (do_exec_redirect env fds none count args).trace) ∧
      Event.c_fork ∉ (do_exec_redirect env fds none count args).trace ∧
      (do_exec_redirect env fds none count args).fds = fds) ∧
    Event.c_open "" ∈ (do_exec_redirect env fds (some "") count args).trace ∧
    (env.open_fd "" < 0 →
      (do_exec_redirect env fds (some "") count args).outcome = Outcome.aborted ∧
      Event.c_fork ∉ (do_exec_redirect env fds (some "") count args).trace) := by
  refine ⟨by simp [do_exec_redirect], ?_, ?_⟩
  · by_cases hopen : env.open_fd "" < 0
    · rw [redirect_open_fails env fds "" count args hargs hopen]; simp
    · have hopen : 0 ≤ env.open_fd "" := not_lt.mp hopen
      by_cases hfork : env.fork_pid = -1
      · rw [redirect_fork_fails env fds "" count args hargs hopen hfork]; simp
      · by_cases hchild : env.fork_pid = 0
        · by_cases hdup : env.dup2_rc (env.open_fd "") 1 < 0
          · rw [redirect_dup2_fails env fds "" count args hargs hopen hchild hdup]; simp
          · rw [redirect_child_exec env fds "" count args hargs hopen hchild (not_lt.mp hdup)]
            cases env.execvp_rc (command0 (args.take count ++ [none]))
                (args.take count ++ [none]) with
            | none => simp
            | some r => by_cases hr : r = -1 <;> simp [hr, redirect_parent_eq]
        · rw [redirect_parent_path env fds "" count args hargs hopen hfork hchild,
            redirect_parent_eq]
          simp
  · intro hopen
    rw [redirect_open_fails env fds "" count args hargs hopen]
    simp

/-- Witness for C3 amended: `open("")` fails, the process aborts. -/
theorem do_exec_redirect_null_path_witness :
    2 ≤ echo_args.length ∧
    (do_exec_redirect env_open_fails std_fds none 2 echo_args).outcome =
      Outcome.returned false ∧
    Event.c_open "" ∈ (do_exec_redirect env_open_fails std_fds (some "") 2 echo_args).trace ∧
    (do_exec_redirect env_open_fails std_fds (some "") 2 echo_args).outcome = Outcome.aborted :=
  ⟨by decide,
    (do_exec_redirect_null_path env_open_fails std_fds 2 echo_args (by decide)).1.1,
    (do_exec_redirect_null_path env_open_fails std_fds 2 echo_args (by decide)).2.1,
    ((do_exec_redirect_null_path env_open_fails std_fds 2 echo_args (by decide)).2.2
      (by decide)).1⟩

/-- C4. When `fork` succeeded (positive pid) and `waitpid` stored the wait
status word of the child, `do_exec`, and `do_exec_redirect` called with a path
that `open` accepted, both wait for the child and return true exactly when the
child exited normally with code 0; a non-zero exit code and a termination by
signal give false. -/
theorem exec_result_of_wait_status (env : Env) (fds : Finset Int) (path : String)
    (count : Nat) (args : List CStr) (w : WaitStatus)
    (hargs : count ≤ args.length) (hfork : 0 < env.fork_pid)
    (hwait : env.waitpid_status env.fork_pid = some w.encode) :
    (((do_exec env count args).outcome = Outcome.returned true ↔ w = WaitStatus.exited 0) ∧
      ((do_exec env count args).outcome = Outcome.returned false ↔ w ≠ WaitStatus.exited 0) ∧
      Event.c_waitpid env.fork_pid ∈ (do_exec env count args).trace) ∧
    (0 ≤ env.open_fd path →
      ((do_exec_redirect env fds (some path) count args).outcome = Outcome.returned true ↔
        w = WaitStatus.exited 0) ∧
      ((do_exec_redirect env fds (some path) count args).outcome = Outcome.returned false ↔
        w ≠ WaitStatus.exited 0) ∧
      Event.c_waitpid env.fork_pid ∈
        (do_exec_redirect env fds (some path) count args).trace) := by
  have hne0 : env.fork_pid ≠ 0 := by omega
  have hne1 : env.fork_pid ≠ -1 := by omega
  have henc : w.encode = 0 ↔ w = WaitStatus.exited 0 := by
    cases w with
    | exited c =>
      simp only [WaitStatus.encode, WaitStatus.exited.injEq]
      constructor
      · intro h
        apply Fin.ext
        have : (c.val : Int) = 0 := by omega
        simpa using this
      · intro h
        simp [h]
    | signaled s core =>
      simp only [WaitStatus.encode]
      constructor
      · intro h
        have h1 : (0 : Int) ≤ (s.val : Int) := Int.ofNat_nonneg _
        cases core <;> simp at h <;> omega
      · intro h
        cases h
  refine ⟨?_, ?_⟩
  · unfold do_exec
    rw [build_command_of_le count args hargs]
    by_cases hz : w.encode = 0
    · have hw : w = WaitStatus.exited 0 := henc.mp hz
      subst hw
      simp [hne0, hne1, hfork, hwait, hz]
    · have hw : w ≠ WaitStatus.exited 0 := fun h => hz (henc.mpr h)
      simp [hne0, hne1, hfork, hwait, hz, hw]
  · intro hopen
    rw [redirect_parent_path env fds path count args hargs hopen hne1 hne0, redirect_parent_eq]
    by_cases hz : w.encode = 0
    · have hw : w = WaitStatus.exited 0 := henc.mp hz
      subst hw
      simp [hwait, hz]
    · have hw : w ≠ WaitStatus.exited 0 := fun h => hz (henc.mpr h)
      simp [hwait, hz, hw]

/-- Witness for C4: a child that exits with code 0 (`/bin/true`) gives true;
a child that exits with code 1 (`/bin/false`, status word 256) gives false in
both executors. -/
theorem exec_result_of_wait_status_witness :
    (2 ≤ echo_args.length ∧ 0 < env_parent_fail.fork_pid ∧
      env_parent_fail.waitpid_status env_parent_fail.fork_pid =
        some (WaitStatus.exited 1).encode ∧
      0 ≤ env_parent_fail.open_fd "/tmp/out.txt") ∧
    (do_exec env_parent_ok 2 echo_args).outcome = Outcome.returned true ∧
    (do_exec env_parent_fail 2 echo_args).outcome = Outcome.returned false ∧
    (do_exec_redirect env_parent_fail std_fds (some "/tmp/out.txt") 2 echo_args).outcome =
      Outcome.returned false :=
  ⟨⟨by decide, by decide, by decide, by decide⟩,
    (exec_result_of_wait_status env_parent_ok std_fds "/tmp/out.txt" 2 echo_args
      (WaitStatus.exited 0) (by decide) (by decide) (by decide)).1.1.2 rfl,
    (exec_result_of_wait_status env_parent_fail std_fds "/tmp/out.txt" 2 echo_args
      (WaitStatus.exited 1) (by decide) (by decide) (by decide)).1.2.1.2 (by decide),
    ((exec_result_of_wait_status env_parent_fail std_fds "/tmp/out.txt" 2 echo_args
      (WaitStatus.exited 1) (by decide) (by decide) (by decide)).2 (by decide)).2.1.2
      (by decide)⟩

theorem do_exec_execv_mem (env : Env) (count : Nat) (args : List CStr)
    (hargs : count ≤ args.length) (p : CStr) (argv : List CStr)
    (h : Event.c_execv p argv ∈ (do_exec env count args).trace) :
    argv = args.take count ++ [none] ∧ p = command0 argv := by
  unfold do_exec at h
  rw [build_command_of_le count args hargs] at h
  simp only at h
  split_ifs at h with h1 h2 h3
  · simp at h
  · cases hx : env.execv_rc (command0 (args.take count ++ [none])) (args.take count ++ [none]) with
    | none =>
      rw [hx] at h
      simp at h
      rw [h.1, h.2]
      exact ⟨rfl, rfl⟩
    | some r =>
      rw [hx] at h
      by_cases hr : r = -1
      · simp [hr] at h
        rw [h.1, h.2]
        exact ⟨rfl, rfl⟩
      · simp [hr] at h
        rw [h.1, h.2]
        exact ⟨rfl, rfl⟩
  · simp at h
  · simp at h
  · simp at h

theorem do_exec_redirect_execvp_mem (env : Env) (fds : Finset Int) (outputfile : CStr)
    (count : Nat) (args : List CStr) (hargs : count ≤ args.length) (p : CStr)
    (argv : List CStr)
    (h : Event.c_execvp p argv ∈ (do_exec_redirect env fds outputfile count args).trace) :
    argv = args.take count ++ [none] ∧ p = command0 argv := by
  cases outputfile with
  | none => simp [do_exec_redirect] at h
  | some path =>
    by_cases hopen : env.open_fd path < 0
    · rw [redirect_open_fails env fds path count args hargs hopen] at h
      simp at h
    · have hopen : 0 ≤ env.open_fd path := not_lt.mp hopen
      by_cases hfork : env.fork_pid = -1
      · rw [redirect_fork_fails env fds path count args hargs hopen hfork] at h
        simp at h
      · by_cases hchild : env.fork_pid = 0
        · by_cases hdup : env.dup2_rc (env.open_fd path) 1 < 0
          · rw [redirect_dup2_fails env fds path count args hargs hopen hchild hdup] at h
            simp at h
          · rw [redirect_child_exec env fds path count args hargs hopen hchild
              (not_lt.mp hdup)] at h
            cases hx : env.execvp_rc (command0 (args.take count ++ [none]))
                (args.take count ++ [none]) with
            | none =>
              rw [hx] at h
              simp at h
              rw [h.1, h.2]
              exact ⟨rfl, rfl⟩
            | some r =>
              rw [hx] at h
              by_cases hr : r = -1
              · simp [hr] at h
                rw [h.1, h.2]
                exact ⟨rfl, rfl⟩
              · simp [hr, redirect_parent_eq] at h
                rw [h.1, h.2]
                exact ⟨rfl, rfl⟩
        · rw [redirect_parent_path env fds path count args hargs hopen hfork hchild,
            redirect_parent_eq] at h
          simp at h

/-- C5. For `count ≥ 1` and a caller that supplies exactly `count` arguments,
every vector that `do_exec` hands to `execv` and that `do_exec_redirect` hands
to `execvp` is the caller's arguments followed by one NULL: it has `count + 1`
entries, entry `i` is the caller's `i`-th argument for `i < count` (so an entry
before index `count` is NULL only if the caller passed NULL there), entry
`count` is NULL, and the path given to the exec call is entry 0.  Such a call
is made in the child of `do_exec`, and in the child of `do_exec_redirect` once
`open` and `dup2` have succeeded. -/
theorem exec_argument_vector (env : Env) (fds : Finset Int) (outputfile : CStr)
    (count : Nat) (args : List CStr) (hcount : 1 ≤ count) (hlen : args.length = count) :
    (∀ (p : CStr) (argv : List CStr),
      (Event.c_execv p argv ∈ (do_exec env count args).trace ∨
        Event.c_execvp p argv ∈ (do_exec_redirect env fds outputfile count args).trace) →
      argv = args ++ [none] ∧
      argv.length = count + 1 ∧
      (∀ i, i < count → argv[i]? = args[i]?) ∧
      ((∀ a ∈ args, a ≠ none) → ∀ i, i < count → argv[i]? ≠ some none) ∧
      argv[count]? = some none ∧
      argv[0]? = some p) ∧
    (env.fork_pid = 0 →
      ∃ p argv, Event.c_execv p argv ∈ (do_exec env count args).trace) ∧
    (env.fork_pid = 0 → ∀ path, outputfile = some path → 0 ≤ env.open_fd path →
      0 ≤ env.dup2_rc (env.open_fd path) 1 →
      ∃ p argv, Event.c_execvp p argv ∈ (do_exec_redirect env fds outputfile count args).trace) := by
  have hargs : count ≤ args.length := by omega
  have htake : args.take count = args := by
    rw [← hlen]; exact List.take_length args
  refine ⟨?_, ?_, ?_⟩
  · intro p argv h
    have key : argv = args ++ [none] ∧ p = command0 argv := by
      rcases h with h | h
      · have := do_exec_execv_mem env count args hargs p argv h
        rwa [htake] at this
      · have := do_exec_redirect_execvp_mem env fds outputfile count args hargs p argv h
        rwa [htake] at this
    obtain ⟨hargv, hp⟩ := key
    have hleft : ∀ i, i < count → argv[i]? = args[i]? := by
      intro i hi
      rw [hargv]
      exact List.getElem?_append_left (by omega)
    refine ⟨hargv, ?_, hleft, ?_, ?_, ?_⟩
    · rw [hargv]; simp [hlen]
    · intro hnn i hi hnone
      rw [hleft i hi] at hnone
      have hmem : (none : CStr) ∈ args := List.getElem?_mem hnone
      exact hnn none hmem rfl
    · rw [hargv, ← hlen]; simp
    · rw [hp, hargv]
      cases args with
      | nil => simp at hlen; omega
      | cons a rest => simp [command0]
  · intro hchild
    unfold do_exec
    rw [build_command_of_le count args hargs]
    cases hx : env.execv_rc (command0 (args.take count ++ [none])) (args.take count ++ [none]) with
    | none => simp [hchild, hx]
    | some r => by_cases hr : r = -1 <;> simp [hchild, hx, hr]
  · intro hchild path hout hopen hdup
    rw [hout, redirect_child_exec env fds path count args hargs hopen hchild hdup]
    cases hx : env.execvp_rc (command0 (args.take count ++ [none]))
        (args.take count ++ [none]) with
    | none => simp
    | some r => by_cases hr : r = -1 <;> simp [hr, redirect_parent_eq]

/-- Witness for C5: the child of `do_exec(2, "/bin/echo", "hi")` calls
`execv("/bin/echo", {"/bin/echo", "hi", NULL})`. -/
theorem exec_argument_vector_witness :
    (1 ≤ 2 ∧ echo_args.length = 2) ∧
    Event.c_execv (some "/bin/echo") [some "/bin/echo", some "hi", none] ∈
      (do_exec env_child_exec_ok 2 echo_args).trace ∧
    [some "/bin/echo", some "hi", none] = echo_args ++ [none] ∧
    ([some "/bin/echo", some "hi", none] : List CStr).length = 2 + 1 :=
  ⟨⟨by decide, by decide⟩, by decide,
    ((exec_argument_vector env_child_exec_ok std_fds (some "/tmp/out.txt") 2 echo_args
      (by decide) (by decide)).1 (some "/bin/echo") [some "/bin/echo", some "hi", none]
      (Or.inl (by decide))).1,
    ((exec_argument_vector env_child_exec_ok std_fds (some "/tmp/out.txt") 2 echo_args
      (by decide) (by decide)).1 (some "/bin/echo") [some "/bin/echo", some "hi", none]
      (Or.inl (by decide))).2.1⟩

/-- C7. When `fork` returns -1, `do_exec` returns false having called only
`fork` (no `waitpid`, no exec), whereas `do_exec_redirect`, whose `open`
succeeded, ends in `abort` having called only `open` and `fork`.  When `open`
of a non-NULL path returns a negative value, `do_exec_redirect` ends in `abort`
having called only `open` (no `fork`). -/
theorem spawn_failure_policy (env : Env) (fds : Finset Int) (path : String) (count : Nat)
    (args : List CStr) (hargs : count ≤ args.length) :
    (env.fork_pid = -1 →
      (do_exec env count args).outcome = Outcome.returned false ∧
      (do_exec env count args).trace = [Event.c_fork]) ∧
    (env.fork_pid = -1 → 0 ≤ env.open_fd path →
      (do_exec_redirect env fds (some path) count args).outcome = Outcome.aborted ∧
      (do_exec_redirect env fds (some path) count args).trace =
        [Event.c_open path, Event.c_fork]) ∧
    (env.open_fd path < 0 →
      (do_exec_redirect env fds (some path) count args).outcome = Outcome.aborted ∧
      (do_exec_redirect env fds (some path) count args).trace = [Event.c_open path]) := by
  refine ⟨?_, ?_, ?_⟩
  · intro hfork
    unfold do_exec
    rw [build_command_of_le count args hargs]
    simp [hfork]
  · intro hfork hopen
    rw [redirect_fork_fails env fds path count args hargs hopen hfork]
    exact ⟨rfl, rfl⟩
  · intro hopen
    rw [redirect_open_fails env fds path count args hargs hopen]
    exact ⟨rfl, rfl⟩

/-- Witness for C7: `fork` fails in both executors; `open` fails in the
redirecting one. -/
theorem spawn_failure_policy_witness :
    2 ≤ echo_args.length ∧
    ((do_exec env_fork_fails 2 echo_args).outcome = Outcome.returned false ∧
      (do_exec env_fork_fails 2 echo_args).trace = [Event.c_fork]) ∧
    ((do_exec_redirect env_fork_fails std_fds (some "/tmp/out.txt") 2 echo_args).outcome =
        Outcome.aborted ∧
      (do_exec_redirect env_fork_fails std_fds (some "/tmp/out.txt") 2 echo_args).trace =
        [Event.c_open "/tmp/out.txt", Event.c_fork]) ∧
    ((do_exec_redirect env_open_fails std_fds (some "/tmp/out.txt") 2 echo_args).outcome =
        Outcome.aborted ∧
      (do_exec_redirect env_open_fails std_fds (some "/tmp/out.txt") 2 echo_args).trace =
        [Event.c_open "/tmp/out.txt"]) :=
  ⟨by decide,
    (spawn_failure_policy env_fork_fails std_fds "/tmp/out.txt" 2 echo_args (by decide)).1
      (by decide),
    (spawn_failure_policy env_fork_fails std_fds "/tmp/out.txt" 2 echo_args (by decide)).2.1
      (by decide) (by decide),
    (spawn_failure_policy env_open_fails std_fds "/tmp/out.txt" 2 echo_args (by decide)).2.2
      (by decide)⟩

/-- C8. In the child (`fork` returned 0), when the exec call returns -1:
`do_exec` ends in `_exit(1)` having called only `fork` and `execv`;
`do_exec_redirect` (after `open` and `dup2` succeeded) ends in `_exit(1)` having
called only `open`, `fork`, `dup2`, `close` and `execvp`.  Neither calls
`waitpid` and neither returns a boolean. -/
theorem child_exec_failure_exits (env : Env) (fds : Finset Int) (path : String)
    (count : Nat) (args : List CStr) (hargs : count ≤ args.length)
    (hchild : env.fork_pid = 0) :
    (env.execv_rc (command0 (args.take count ++ [none])) (args.take count ++ [none]) =
        some (-1) →
      (do_exec env count args).outcome = Outcome.exited 1 ∧
      (do_exec env count args).trace =
        [Event.c_fork,
          Event.c_execv (command0 (args.take count ++ [none])) (args.take count ++ [none])] ∧
      (∀ pid, Event.c_waitpid pid ∉ (do_exec env count args).trace) ∧
      (∀ b, (do_exec env count args).outcome ≠ Outcome.returned b)) ∧
    (0 ≤ env.open_fd path → 0 ≤ env.dup2_rc (env.open_fd path) 1 →
      env.execvp_rc (command0 (args.take count ++ [none])) (args.take count ++ [none]) =
        some (-1) →
      (do_exec_redirect env fds (some path) count args).outcome = Outcome.exited 1 ∧
      (do_exec_redirect env fds (some path) count args).trace =
        [Event.c_open path, Event.c_fork, Event.c_dup2 (env.open_fd path) 1,
          Event.c_close (env.open_fd path),
          Event.c_execvp (command0 (args.take count ++ [none])) (args.take count ++ [none])] ∧
      (∀ pid, Event.c_waitpid pid ∉ (do_exec_redirect env fds (some path) count args).trace) ∧
      (∀ b, (do_exec_redirect env fds (some path) count args).outcome ≠
        Outcome.returned b)) := by
  refine ⟨?_, ?_⟩
  · intro hx
    unfold do_exec
    rw [build_command_of_le count args hargs]
    simp [hchild, hx]
  · intro hopen hdup hx
    rw [redirect_child_exec env fds path count args hargs hopen hchild hdup, hx]
    simp

/-- Witness for C8: the exec call fails in the child of both executors. -/
theorem child_exec_failure_exits_witness :
    (2 ≤ echo_args.length ∧ env_child_exec_fails.fork_pid = 0) ∧
    (do_exec env_child_exec_fails 2 echo_args).outcome = Outcome.exited 1 ∧
    (do_exec_redirect env_child_exec_fails std_fds (some "/tmp/out.txt") 2 echo_args).outcome =
      Outcome.exited 1 :=
  ⟨⟨by decide, by decide⟩,
    ((child_exec_failure_exits env_child_exec_fails std_fds "/tmp/out.txt" 2 echo_args
      (by decide) (by decide)).1 (by decide)).1,
    ((child_exec_failure_exits env_child_exec_fails std_fds "/tmp/out.txt" 2 echo_args
      (by decide) (by decide)).2 (by decide) (by decide) (by decide)).1⟩

/-- C9, as stated, fails: when `fork` returns -1, and when `dup2` fails in the
child, `do_exec_redirect` ends in `abort` without having called `close` on the
descriptor 3 that `open` returned, which is still open. -/
theorem do_exec_redirect_abort_without_close :
    ((do_exec_redirect env_fork_fails std_fds (some "/tmp/out.txt") 2 echo_args).outcome =
        Outcome.aborted ∧
      Event.c_close 3 ∉
        (do_exec_redirect env_fork_fails std_fds (some "/tmp/out.txt") 2 echo_args).trace ∧
      (3 : Int) ∈
        (do_exec_redirect env_fork_fails std_fds (some "/tmp/out.txt") 2 echo_args).fds) ∧
    ((do_exec_redirect env_child_dup2_fails std_fds (some "/tmp/out.txt") 2 echo_args).outcome =
        Outcome.aborted ∧
      Event.c_close 3 ∉
        (do_exec_redirect env_child_dup2_fails std_fds (some "/tmp/out.txt") 2 echo_args).trace ∧
      (3 : Int) ∈
        (do_exec_redirect env_child_dup2_fails std_fds (some "/tmp/out.txt") 2
          echo_args).fds) := by
  have h1 := redirect_fork_fails env_fork_fails std_fds "/tmp/out.txt" 2 echo_args
    (by decide) (by decide) (by decide)
  have h2 := redirect_dup2_fails env_child_dup2_fails std_fds "/tmp/out.txt" 2 echo_args
    (by decide) (by decide) (by decide) (by decide)
  rw [h1, h2]
  simp [env_fork_fails, env_child_dup2_fails]

/-- C9, amended.  Once `open` has returned a descriptor `fd ≥ 0`,
`do_exec_redirect` has called `close(fd)`, and `fd` is no longer open in the
process, on every path that does not end in `abort`: when it returns true or
false, when the child ends in `_exit(1)` after `execvp` returned -1, and when
`execvp` replaces the image.  The paths that end in `abort` are exactly a
`fork` that returns -1 and a `dup2` that returns a negative value in the
child; on them `close(fd)` has not been called. -/
theorem do_exec_redirect_close_unless_abort (env : Env) (fds : Finset Int) (path : String)
    (count : Nat) (args : List CStr) (hargs : count ≤ args.length)
    (hopen : 0 ≤ env.open_fd path) :
    ((do_exec_redirect env fds (some path) count args).outcome ≠ Outcome.aborted →
      Event.c_close (env.open_fd path) ∈
        (do_exec_redirect env fds (some path) count args).trace ∧
      env.open_fd path ∉ (do_exec_redirect env fds (some path) count args).fds) ∧
    (env.fork_pid = 0 → 0 ≤ env.dup2_rc (env.open_fd path) 1 →
      env.execvp_rc (command0 (args.take count ++ [none])) (args.take count ++ [none]) =
        some (-1) →
      (do_exec_redirect env fds (some path) count args).outcome = Outcome.exited 1 ∧
      Event.c_close (env.open_fd path) ∈
        (do_exec_redirect env fds (some path) count args).trace) ∧
    ((do_exec_redirect env fds (some path) count args).outcome = Outcome.aborted ↔
      (env.fork_pid = -1 ∨ (env.fork_pid = 0 ∧ env.dup2_rc (env.open_fd path) 1 < 0))) ∧
    ((do_exec_redirect env fds (some path) count args).outcome = Outcome.aborted →
      Event.c_close (env.open_fd path) ∉
        (do_exec_redirect env fds (some path) count args).trace) := by
  by_cases hfork : env.fork_pid = -1
  · rw [redirect_fork_fails env fds path count args hargs hopen hfork]
    simp [hfork]
  · by_cases hchild : env.fork_pid = 0
    · by_cases hdup : env.dup2_rc (env.open_fd path) 1 < 0
      · rw [redirect_dup2_fails env fds path count args hargs hopen hchild hdup]
        simp [hchild, hdup]
      · rw [redirect_child_exec env fds path count args hargs hopen hchild (not_lt.mp hdup)]
        cases hx : env.execvp_rc (command0 (args.take count ++ [none]))
            (args.take count ++ [none]) with
        | none => simp [hchild, hdup]
        | some r =>
          by_cases hr : r = -1
          · simp [hr, hchild, hdup]
          · simp [hr, hchild, hdup, redirect_parent_eq]
    · rw [redirect_parent_path env fds path count args hargs hopen hfork hchild,
        redirect_parent_eq]
      simp [hfork, hchild]

/-- Witness for C9 amended: the parent of a successful run has closed the
descriptor 3 before it returns. -/
theorem do_exec_redirect_close_unless_abort_witness :
    (2 ≤ echo_args.length ∧ 0 ≤ env_parent_ok.open_fd "/tmp/out.txt") ∧
    Event.c_close (env_parent_ok.open_fd "/tmp/out.txt") ∈
      (do_exec_redirect env_parent_ok std_fds (some "/tmp/out.txt") 2 echo_args).trace ∧
    env_parent_ok.open_fd "/tmp/out.txt" ∉
      (do_exec_redirect env_parent_ok std_fds (some "/tmp/out.txt") 2 echo_args).fds :=
  ⟨⟨by decide, by decide⟩,
    (do_exec_redirect_close_unless_abort env_parent_ok std_fds "/tmp/out.txt" 2 echo_args
      (by decide) (by decide)).1 (by decide)⟩

/-- One returning call of `do_exec_redirect` leaves the descriptor set as it
found it, provided `open` hands out a descriptor that was not open and
`execvp` returns, if at all, with -1. -/
theorem redirect_returning_call_frame (env : Env) (fds : Finset Int) (outputfile : CStr)
    (count : Nat) (args : List CStr) (b : Bool)
    (hfresh : ∀ p, outputfile = some p → env.open_fd p ∉ fds)
    (hposix : ∀ p argv r, env.execvp_rc p argv = some r → r = -1)
    (hret : (do_exec_redirect env fds outputfile count args).outcome = Outcome.returned b) :
    (do_exec_redirect env fds outputfile count args).fds = fds ∧
    (outputfile = none → (do_exec_redirect env fds outputfile count args).trace = []) ∧
    (∀ p, outputfile = some p →
      (do_exec_redirect env fds outputfile count args).trace =
        [Event.c_open p, Event.c_fork, Event.c_close (env.open_fd p),
          Event.c_waitpid env.fork_pid]) := by
  cases outputfile with
  | none => simp [do_exec_redirect]
  | some path =>
    have hfr : env.open_fd path ∉ fds := hfresh path rfl
    cases hb : build_command count args with
    | none => simp [do_exec_redirect, hb] at hret
    | some command =>
      simp only [do_exec_redirect, hb] at hret ⊢
      split_ifs at hret ⊢ with h1 h2 h3 h4
      · cases hx : env.execvp_rc (command0 command) command with
        | none => simp [hx] at hret
        | some r =>
          have hr : r = -1 := hposix _ _ _ hx
          simp [hx, hr] at hret
      · simp [redirect_parent_eq, Finset.erase_insert hfr]

/-- C6. Sequential calls of `do_exec_redirect` that all return to their caller,
in a process where `open` hands out a descriptor that is not already open and
`execvp` returns only to report failure (-1): the set of open descriptors
after the calls is the set before them, so their number is back at the
baseline; and each single call returns, leaves the set as it found it, and
makes exactly the calls `open`, `fork`, `close(fd)`, `waitpid` in this order
(none at all for a NULL path), so `fd` is closed before `waitpid` is called. -/
theorem do_exec_redirect_fd_baseline (calls : List Call) (fds0 fdsN : Finset Int)
    (hfresh : ∀ c ∈ calls, ∀ p, c.outputfile = some p → c.env.open_fd p ∉ fds0)
    (hposix : ∀ c ∈ calls, ∀ p argv r, c.env.execvp_rc p argv = some r → r = -1)
    (hret : run_calls calls fds0 = some fdsN) :
    fdsN = fds0 ∧ fdsN.card = fds0.card ∧
    ∀ c ∈ calls,
      (∃ b, (do_exec_redirect c.env fds0 c.outputfile c.count c.args).outcome =
        Outcome.returned b) ∧
      (do_exec_redirect c.env fds0 c.outputfile c.count c.args).fds = fds0 ∧
      (c.outputfile = none →
        (do_exec_redirect c.env fds0 c.outputfile c.count c.args).trace = []) ∧
      (∀ p, c.outputfile = some p →
        (do_exec_redirect c.env fds0 c.outputfile c.count c.args).trace =
          [Event.c_open p, Event.c_fork, Event.c_close (c.env.open_fd p),
            Event.c_waitpid c.env.fork_pid]) := by
  induction calls with
  | nil =>
    simp [run_calls] at hret
    simp [hret]
  | cons c cs ih =>
    simp only [run_calls] at hret
    cases ho : (do_exec_redirect c.env fds0 c.outputfile c.count c.args).outcome with
    | returned b =>
      have hc := redirect_returning_call_frame c.env fds0 c.outputfile c.count c.args b
        (hfresh c (List.mem_cons_self c cs)) (hposix c (List.mem_cons_self c cs)) ho
      rw [ho] at hret
      simp only [hc.1] at hret
      have hrest := ih (fun d hd => hfresh d (List.mem_cons_of_mem c hd))
        (fun d hd => hposix d (List.mem_cons_of_mem c hd)) hret
      refine ⟨hrest.1, hrest.2.1, ?_⟩
      intro d hd
      rcases List.mem_cons.mp hd with hdc | hdcs
      · subst hdc
        exact ⟨⟨b, ho⟩, hc⟩
      · exact hrest.2.2 d hdcs
    | aborted => rw [ho] at hret; simp at hret
    | exited code => rw [ho] at hret; simp at hret
    | replaced => rw [ho] at hret; simp at hret
    | undefined => rw [ho] at hret; simp at hret

/-- Witness for C6: three returning calls in a row (child exits 0, child exits
1, NULL path) starting from the descriptors 0, 1, 2. -/
theorem do_exec_redirect_fd_baseline_witness :
    run_calls [call_ok, call_fail, call_null] std_fds = some std_fds ∧
    (do_exec_redirect call_ok.env std_fds call_ok.outputfile call_ok.count call_ok.args).fds =
      std_fds ∧
    (do_exec_redirect call_ok.env std_fds call_ok.outputfile call_ok.count call_ok.args).trace =
      [Event.c_open "/tmp/out.txt", Event.c_fork, Event.c_close 3, Event.c_waitpid 4242] := by
  have hfresh : ∀ c ∈ [call_ok, call_fail, call_null], ∀ p, c.outputfile = some p →
      c.env.open_fd p ∉ std_fds := by
    intro c hc p _
    simp only [List.mem_cons, List.mem_singleton, List.not_mem_nil, or_false] at hc
    have h3 : (3 : Int) ∉ std_fds := by decide
    rcases hc with h | h | h <;> subst h <;> exact h3
  have hposix : ∀ c ∈ [call_ok, call_fail, call_null], ∀ p argv r,
      c.env.execvp_rc p argv = some r → r = -1 := by
    intro c hc p argv r hr
    simp only [List.mem_cons, List.mem_singleton, List.not_mem_nil, or_false] at hc
    rcases hc with h | h | h <;> subst h <;> cases hr
  have hret : run_calls [call_ok, call_fail, call_null] std_fds = some std_fds := by decide
  have h := do_exec_redirect_fd_baseline [call_ok, call_fail, call_null] std_fds std_fds
    hfresh hposix hret
  have hc := h.2.2 call_ok (by simp)
  exact ⟨hret, hc.2.1, hc.2.2.2 "/tmp/out.txt" rfl⟩

end Systemcalls

namespace Threading

/-- The part of C10 that the code meets: `threadfunc` returns the pointer it
was given, and `thread_complete_success` is true exactly when both sleeps
returned 0; the thread holds the mutex on return exactly when the first sleep
returned 0 and the second did not. -/
theorem threadfunc_success_flag (thread_param : Nat) (t : thread_data) (rc1 rc2 : Int) :
    (threadfunc thread_param t rc1 rc2).ret = thread_param ∧
    ((threadfunc thread_param t rc1 rc2).t_data.thread_complete_success = true ↔
      (rc1 = 0 ∧ rc2 = 0)) ∧
    ((threadfunc thread_param t rc1 rc2).held = true ↔ (rc1 = 0 ∧ rc2 ≠ 0)) := by
  unfold threadfunc
  by_cases h1 : rc1 = 0 <;> by_cases h2 : rc2 = 0 <;> simp [h1, h2]

/-- C10 fails on the code: when the first `usleep` returns 0 and the second
returns -1, `threadfunc` has locked the mutex, returns through the early
`return t_data;` of the second error check, and still holds the mutex on
return: `pthread_mutex_unlock` was never called. -/
theorem threadfunc_second_sleep_failure_keeps_mutex (thread_param : Nat) (t : thread_data) :
    (threadfunc thread_param t 0 (-1)).held = true ∧
    Event.c_lock ∈ (threadfunc thread_param t 0 (-1)).trace ∧
    Event.c_unlock ∉ (threadfunc thread_param t 0 (-1)).trace ∧
    (threadfunc thread_param t 0 (-1)).trace =
      [Event.c_usleep (t.wait_to_obtain_ms * 1000), Event.c_lock,
        Event.c_usleep (t.wait_to_release_ms * 1000)] ∧
    (threadfunc thread_param t 0 (-1)).ret = thread_param ∧
    (threadfunc thread_param t 0 (-1)).t_data.thread_complete_success = false := by
  simp [threadfunc]

end Threading
